import Mathlib

/-!
Verification of the stream-metadata model of the RTMP session module
(`src/rtmp/src/sessions/mod.rs`): the `StreamMetadata` record, its
constructor `StreamMetadata::new`, and `StreamMetadata::apply_metadata_values`,
which folds a mapping of string keys to dynamically typed AMF0 values into
the record.

Embedding choices:
* IEEE-754 double values carried by AMF0 numbers are modelled by `FloatVal`:
  not-a-number, the two infinities, and finite values as exact rationals
  (every finite IEEE double is a rational, so this is a faithful superset;
  the code performs no float arithmetic, only the two Rust casts, which are
  modelled exactly below).
* The `HashMap<String, Amf0Value>` argument is modelled as an association
  list in the (arbitrary) order `drain` yields the pairs; a hash map holds
  each key at most once, which appears as a `Nodup` hypothesis on the keys,
  and order-independence is proved (`apply_metadata_values_perm`).
* `&mut self` mutation becomes a function from the old record to the new one.
-/

/-- Model of an IEEE-754 double-precision value: not-a-number, an infinity,
or a finite value represented exactly as a rational. -/
inductive FloatVal where
  | nan : FloatVal
  | posInf : FloatVal
  | negInf : FloatVal
  | finite (q : ℚ) : FloatVal
deriving DecidableEq

/-- Rust's saturating `as u32` cast on an f64: NaN and negative values give 0,
values at or above `u32::MAX` give `u32::MAX`, and finite in-range values are
truncated toward zero. -/
def f64_as_u32 : FloatVal → Nat
  | .nan => 0
  | .negInf => 0
  | .posInf => 4294967295
  | .finite q => if q ≤ 0 then 0 else min q.floor.toNat 4294967295

/-- Round a rational to the nearest integer, ties to even. -/
def roundHalfEven (x : ℚ) : ℤ :=
  let f := x.floor
  let r := x - (f : ℚ)
  if r < 1/2 then f
  else if 1/2 < r then f + 1
  else if f % 2 = 0 then f else f + 1

/-- Floor of the base-2 logarithm of a positive rational, computed from the
bit lengths of numerator and denominator with a one-step correction. -/
def ratLog2Floor (q : ℚ) : ℤ :=
  let e0 : ℤ := (Nat.log2 q.num.toNat : ℤ) - (Nat.log2 q.den : ℤ)
  if q < (2 : ℚ) ^ e0 then e0 - 1
  else if (2 : ℚ) ^ (e0 + 1) ≤ q then e0 + 1
  else e0

/-- Rust's `as f32` cast on an f64: NaN and infinities are preserved; a finite
value is rounded to the nearest representable single-precision value
(24-bit significand, exponent clamped below at the subnormal range, ties to
even), overflowing to the infinity of its sign. -/
def f64_as_f32 : FloatVal → FloatVal
  | .nan => .nan
  | .posInf => .posInf
  | .negInf => .negInf
  | .finite q =>
    if q = 0 then .finite 0
    else
      let a := |q|
      let e : ℤ := max (ratLog2Floor a) (-126)
      let step : ℚ := (2 : ℚ) ^ (e - 23)
      let n : ℤ := roundHalfEven (a / step)
      let v : ℚ := (n : ℚ) * step
      if (2 : ℚ) ^ (128 : ℤ) ≤ v then (if 0 < q then .posInf else .negInf)
      else .finite (if 0 < q then v else -v)

/-- Modelled from the spec: the dynamically typed value of the external
structured-value codec (`rml_amf0::Amf0Value`, a crate of this repository
whose sources are not provided). The spec's §6 lists the value shapes the
core consumes: number, string, boolean, object/mapping, null. -/
inductive Amf0Value where
  | Number (value : FloatVal) : Amf0Value
  | Boolean (value : Bool) : Amf0Value
  | Utf8String (value : String) : Amf0Value
  | Object (properties : List (String × Amf0Value)) : Amf0Value
  | Null : Amf0Value

/-- Modelled from the spec: accessor yielding the numeric payload when the
value is a number, nothing otherwise. -/
def Amf0Value.get_number : Amf0Value → Option FloatVal
  | .Number x => some x
  | _ => none

/-- Modelled from the spec: accessor yielding the string payload when the
value is a string, nothing otherwise. -/
def Amf0Value.get_string : Amf0Value → Option String
  | .Utf8String x => some x
  | _ => none

/-- Modelled from the spec: accessor yielding the boolean payload when the
value is a boolean, nothing otherwise. -/
def Amf0Value.get_boolean : Amf0Value → Option Bool
  | .Boolean x => some x
  | _ => none

/-- The metadata information a stream may advertise on publishing
(`StreamMetadata` in `sessions/mod.rs`). `u32` fields are modelled as `Nat`
(the casts producing them never exceed `u32::MAX`), the `f32` field as a
`FloatVal`. -/
@[ext] structure StreamMetadata where
  video_width : Option Nat
  video_height : Option Nat
  video_codec : Option String
  video_frame_rate : Option FloatVal
  video_bitrate_kbps : Option Nat
  audio_codec : Option String
  audio_bitrate_kbps : Option Nat
  audio_sample_rate : Option Nat
  audio_channels : Option Nat
  audio_is_stereo : Option Bool
  encoder : Option String
deriving DecidableEq

/-- Creates a new (and empty) metadata instance (`StreamMetadata::new`). -/
def StreamMetadata.new : StreamMetadata where
  video_width := none
  video_height := none
  video_codec := none
  video_frame_rate := none
  video_bitrate_kbps := none
  audio_codec := none
  audio_bitrate_kbps := none
  audio_sample_rate := none
  audio_channels := none
  audio_is_stereo := none
  encoder := none

/-- One iteration of the `for (key, value) in properties.drain()` loop body of
`apply_metadata_values`: the `match key.as_ref()` over the eleven known keys,
each arm setting its field only when the accessor for the expected type
succeeds, and the `_ => ()` arm leaving the record unchanged. -/
def applyProperty (m : StreamMetadata) (key : String) (value : Amf0Value) :
    StreamMetadata :=
  if key = "width" then
    match value.get_number with
    | some x => { m with video_width := some (f64_as_u32 x) }
    | none => m
  else if key = "height" then
    match value.get_number with
    | some x => { m with video_height := some (f64_as_u32 x) }
    | none => m
  else if key = "videocodecid" then
    match value.get_string with
    | some x => { m with video_codec := some x }
    | none => m
  else if key = "videodatarate" then
    match value.get_number with
    | some x => { m with video_bitrate_kbps := some (f64_as_u32 x) }
    | none => m
  else if key = "framerate" then
    match value.get_number with
    | some x => { m with video_frame_rate := some (f64_as_f32 x) }
    | none => m
  else if key = "audiocodecid" then
    match value.get_string with
    | some x => { m with audio_codec := some x }
    | none => m
  else if key = "audiodatarate" then
    match value.get_number with
    | some x => { m with audio_bitrate_kbps := some (f64_as_u32 x) }
    | none => m
  else if key = "audiosamplerate" then
    match value.get_number with
    | some x => { m with audio_sample_rate := some (f64_as_u32 x) }
    | none => m
  else if key = "audiochannels" then
    match value.get_number with
    | some x => { m with audio_channels := some (f64_as_u32 x) }
    | none => m
  else if key = "stereo" then
    match value.get_boolean with
    | some x => { m with audio_is_stereo := some x }
    | none => m
  else if key = "encoder" then
    match value.get_string with
    | some x => { m with encoder := some x }
    | none => m
  else
    m

/-- `StreamMetadata::apply_metadata_values`: fold the drained key/value pairs
of the property mapping over the record. -/
def StreamMetadata.apply_metadata_values (m : StreamMetadata)
    (properties : List (String × Amf0Value)) : StreamMetadata :=
  properties.foldl (fun acc kv => applyProperty acc kv.1 kv.2) m

/-- Looking up a key that occurs in no pair of the association list fails. -/
theorem lookup_eq_none_of_not_mem_keys (key : String)
    (t : List (String × Amf0Value)) (h : key ∉ t.map Prod.fst) :
    t.lookup key = none := by
  induction t with
  | nil => rfl
  | cons p t ih =>
    obtain ⟨k, v⟩ := p
    rw [List.map_cons, List.mem_cons] at h
    push_neg at h
    rw [List.lookup_cons]
    simp only [beq_false_of_ne h.1]
    exact ih h.2

/-- Projection of one loop iteration onto the `video_width` field. -/
theorem applyProperty_video_width (m : StreamMetadata) (k : String)
    (v : Amf0Value) :
    (applyProperty m k v).video_width =
      if k = "width" then ((v.get_number).map f64_as_u32).elim m.video_width some
      else m.video_width := by
  unfold applyProperty
  by_cases h : k = "width"
  · subst h
    cases v <;> rfl
  · simp only [if_neg h]
    repeat' split
    all_goals rfl

/-- Projection of one loop iteration onto the `video_height` field. -/
theorem applyProperty_video_height (m : StreamMetadata) (k : String)
    (v : Amf0Value) :
    (applyProperty m k v).video_height =
      if k = "height" then
        ((v.get_number).map f64_as_u32).elim m.video_height some
      else m.video_height := by
  unfold applyProperty
  by_cases h : k = "height"
  · subst h
    cases v <;> rfl
  · simp only [if_neg h]
    repeat' split
    all_goals rfl

/-- Projection of one loop iteration onto the `video_codec` field. -/
theorem applyProperty_video_codec (m : StreamMetadata) (k : String)
    (v : Amf0Value) :
    (applyProperty m k v).video_codec =
      if k = "videocodecid" then (v.get_string).elim m.video_codec some
      else m.video_codec := by
  unfold applyProperty
  by_cases h : k = "videocodecid"
  · subst h
    cases v <;> rfl
  · simp only [if_neg h]
    repeat' split
    all_goals rfl

/-- Projection of one loop iteration onto the `video_bitrate_kbps` field. -/
theorem applyProperty_video_bitrate (m : StreamMetadata) (k : String)
    (v : Amf0Value) :
    (applyProperty m k v).video_bitrate_kbps =
      if k = "videodatarate" then
        ((v.get_number).map f64_as_u32).elim m.video_bitrate_kbps some
      else m.video_bitrate_kbps := by
  unfold applyProperty
  by_cases h : k = "videodatarate"
  · subst h
    cases v <;> rfl
  · simp only [if_neg h]
    repeat' split
    all_goals rfl

/-- Projection of one loop iteration onto the `video_frame_rate` field. -/
theorem applyProperty_video_frame_rate (m : StreamMetadata) (k : String)
    (v : Amf0Value) :
    (applyProperty m k v).video_frame_rate =
      if k = "framerate" then
        ((v.get_number).map f64_as_f32).elim m.video_frame_rate some
      else m.video_frame_rate := by
  unfold applyProperty
  by_cases h : k = "framerate"
  · subst h
    cases v <;> rfl
  · simp only [if_neg h]
    repeat' split
    all_goals rfl

/-- Projection of one loop iteration onto the `audio_codec` field. -/
theorem applyProperty_audio_codec (m : StreamMetadata) (k : String)
    (v : Amf0Value) :
    (applyProperty m k v).audio_codec =
      if k = "audiocodecid" then (v.get_string).elim m.audio_codec some
      else m.audio_codec := by
  unfold applyProperty
  by_cases h : k = "audiocodecid"
  · subst h
    cases v <;> rfl
  · simp only [if_neg h]
    repeat' split
    all_goals rfl

/-- Projection of one loop iteration onto the `audio_bitrate_kbps` field. -/
theorem applyProperty_audio_bitrate (m : StreamMetadata) (k : String)
    (v : Amf0Value) :
    (applyProperty m k v).audio_bitrate_kbps =
      if k = "audiodatarate" then
        ((v.get_number).map f64_as_u32).elim m.audio_bitrate_kbps some
      else m.audio_bitrate_kbps := by
  unfold applyProperty
  by_cases h : k = "audiodatarate"
  · subst h
    cases v <;> rfl
  · simp only [if_neg h]
    repeat' split
    all_goals rfl

/-- Projection of one loop iteration onto the `audio_sample_rate` field. -/
theorem applyProperty_audio_sample_rate (m : StreamMetadata) (k : String)
    (v : Amf0Value) :
    (applyProperty m k v).audio_sample_rate =
      if k = "audiosamplerate" then
        ((v.get_number).map f64_as_u32).elim m.audio_sample_rate some
      else m.audio_sample_rate := by
  unfold applyProperty
  by_cases h : k = "audiosamplerate"
  · subst h
    cases v <;> rfl
  · simp only [if_neg h]
    repeat' split
    all_goals rfl

/-- Projection of one loop iteration onto the `audio_channels` field. -/
theorem applyProperty_audio_channels (m : StreamMetadata) (k : String)
    (v : Amf0Value) :
    (applyProperty m k v).audio_channels =
      if k = "audiochannels" then
        ((v.get_number).map f64_as_u32).elim m.audio_channels some
      else m.audio_channels := by
  unfold applyProperty
  by_cases h : k = "audiochannels"
  · subst h
    cases v <;> rfl
  · simp only [if_neg h]
    repeat' split
    all_goals rfl

/-- Projection of one loop iteration onto the `audio_is_stereo` field. -/
theorem applyProperty_audio_is_stereo (m : StreamMetadata) (k : String)
    (v : Amf0Value) :
    (applyProperty m k v).audio_is_stereo =
      if k = "stereo" then (v.get_boolean).elim m.audio_is_stereo some
      else m.audio_is_stereo := by
  unfold applyProperty
  by_cases h : k = "stereo"
  · subst h
    cases v <;> rfl
  · simp only [if_neg h]
    repeat' split
    all_goals rfl

/-- Projection of one loop iteration onto the `encoder` field. -/
theorem applyProperty_encoder (m : StreamMetadata) (k : String)
    (v : Amf0Value) :
    (applyProperty m k v).encoder =
      if k = "encoder" then (v.get_string).elim m.encoder some
      else m.encoder := by
  unfold applyProperty
  by_cases h : k = "encoder"
  · subst h
    cases v <;> rfl
  · simp only [if_neg h]
    repeat' split
    all_goals rfl

/-- Generic single-field description of the whole fold: when the mapping's
keys are distinct (as a hash map's are), a field whose loop step is governed
by `key` and extractor `g` ends up holding `g` of the looked-up value when
that succeeds, and its initial value otherwise. -/
theorem apply_field_char {α : Type} (π : StreamMetadata → Option α)
    (key : String) (g : Amf0Value → Option α)
    (hstep : ∀ m k v, π (applyProperty m k v) =
      if k = key then (g v).elim (π m) some else π m)
    (props : List (String × Amf0Value)) (m : StreamMetadata)
    (hnd : (props.map Prod.fst).Nodup) :
    π (m.apply_metadata_values props) =
      ((props.lookup key).bind g).elim (π m) some := by
  induction props generalizing m with
  | nil => rfl
  | cons p t ih =>
    obtain ⟨k, v⟩ := p
    rw [List.map_cons, List.nodup_cons] at hnd
    show π ((applyProperty m k v).apply_metadata_values t) = _
    rw [ih _ hnd.2, hstep, List.lookup_cons]
    by_cases hk : k = key
    · subst hk
      rw [lookup_eq_none_of_not_mem_keys k t hnd.1, if_pos rfl, beq_self_eq_true]
      rfl
    · rw [if_neg hk, beq_false_of_ne (Ne.symm hk)]

/-- Folding an option back through `Option.elim none some` is the identity. -/
theorem elim_none_some {α : Type} (o : Option α) : o.elim none some = o := by
  cases o <;> rfl

/-- Collapsing a repeated `Option.elim` with the same option. -/
theorem elim_elim {α : Type} (o : Option α) (b : Option α) :
    o.elim (o.elim b some) some = o.elim b some := by
  cases o <;> rfl

/-- Generic: one loop iteration never turns the field governed by `key` from
a present value into an absent one. -/
theorem applyProperty_isSome_mono {α : Type} (π : StreamMetadata → Option α)
    (key : String) (g : Amf0Value → Option α)
    (hstep : ∀ m k v, π (applyProperty m k v) =
      if k = key then (g v).elim (π m) some else π m)
    (m : StreamMetadata) (k : String) (v : Amf0Value)
    (h : (π m).isSome = true) : (π (applyProperty m k v)).isSome = true := by
  rw [hstep]
  by_cases hk : k = key
  · rw [if_pos hk]
    cases g v
    · exact h
    · rfl
  · rw [if_neg hk]
    exact h

/-- Generic: the whole fold never turns the field governed by `key` from a
present value into an absent one. -/
theorem apply_field_isSome_mono {α : Type} (π : StreamMetadata → Option α)
    (key : String) (g : Amf0Value → Option α)
    (hstep : ∀ m k v, π (applyProperty m k v) =
      if k = key then (g v).elim (π m) some else π m)
    (props : List (String × Amf0Value)) :
    ∀ m : StreamMetadata, (π m).isSome = true →
      (π (m.apply_metadata_values props)).isSome = true := by
  induction props with
  | nil => exact fun m h => h
  | cons p t ih =>
    intro m h
    exact ih (applyProperty m p.1 p.2)
      (applyProperty_isSome_mono π key g hstep m p.1 p.2 h)

/-- Generic: after the fold, the field governed by `key` either still holds
its initial contents or holds a value fully produced by the extractor of one
of the supplied property values. -/
theorem apply_field_preserve_or_set {α : Type} (π : StreamMetadata → Option α)
    (key : String) (g : Amf0Value → Option α)
    (hstep : ∀ m k v, π (applyProperty m k v) =
      if k = key then (g v).elim (π m) some else π m)
    (props : List (String × Amf0Value)) :
    ∀ m : StreamMetadata, π (m.apply_metadata_values props) = π m ∨
      ∃ v : Amf0Value, ∃ x : α, g v = some x ∧
        π (m.apply_metadata_values props) = some x := by
  induction props with
  | nil => exact fun m => Or.inl rfl
  | cons p t ih =>
    intro m
    have step := hstep m p.1 p.2
    have hgoal : π (m.apply_metadata_values (p :: t)) =
        π ((applyProperty m p.1 p.2).apply_metadata_values t) := rfl
    rcases ih (applyProperty m p.1 p.2) with h | ⟨v, x, hg, hx⟩
    · by_cases hk : p.1 = key
      · rw [if_pos hk] at step
        cases hg : g p.2 with
        | none =>
          left
          rw [hgoal, h, step, hg]
          rfl
        | some x =>
          right
          refine ⟨p.2, x, hg, ?_⟩
          rw [hgoal, h, step, hg]
          rfl
      · left
        rw [hgoal, h, step, if_neg hk]
    · right
      exact ⟨v, x, hg, by rw [hgoal]; exact hx⟩

/-- Two association lists with the same pairs in a different order agree on
every lookup, provided the keys are distinct. -/
theorem lookup_perm_of_nodup_keys {l1 l2 : List (String × Amf0Value)}
    (hp : l1.Perm l2) (hnd : (l1.map Prod.fst).Nodup) (key : String) :
    l1.lookup key = l2.lookup key := by
  induction hp with
  | nil => rfl
  | cons p hp ih =>
    obtain ⟨k, v⟩ := p
    rw [List.map_cons, List.nodup_cons] at hnd
    rw [List.lookup_cons, List.lookup_cons, ih hnd.2]
  | swap x y l =>
    obtain ⟨a, b⟩ := x
    obtain ⟨c, d⟩ := y
    rw [List.map_cons, List.map_cons, List.nodup_cons, List.nodup_cons] at hnd
    have hne : ¬c = a := fun h => hnd.1 (by rw [h]; exact List.mem_cons_self a _)
    rw [List.lookup_cons, List.lookup_cons, List.lookup_cons, List.lookup_cons]
    by_cases h1 : key = c
    · rw [beq_iff_eq.mpr h1, beq_false_of_ne (fun h => hne (h1.symm.trans h))]
    · by_cases h2 : key = a
      · rw [beq_false_of_ne h1, beq_iff_eq.mpr h2]
      · rw [beq_false_of_ne h1, beq_false_of_ne h2]
  | trans h12 h23 ih12 ih23 =>
    rw [ih12 hnd, ih23 (((h12.map Prod.fst).nodup_iff).mp hnd)]

/-- Field description of the fold for `video_width`. -/
theorem apply_video_width_char (props : List (String × Amf0Value))
    (m : StreamMetadata) (hnd : (props.map Prod.fst).Nodup) :
    (m.apply_metadata_values props).video_width =
      ((props.lookup "width").bind fun v =>
        (v.get_number).map f64_as_u32).elim m.video_width some :=
  apply_field_char (fun s => s.video_width) "width"
    (fun v => (v.get_number).map f64_as_u32) applyProperty_video_width props m hnd

/-- Field description of the fold for `video_height`. -/
theorem apply_video_height_char (props : List (String × Amf0Value))
    (m : StreamMetadata) (hnd : (props.map Prod.fst).Nodup) :
    (m.apply_metadata_values props).video_height =
      ((props.lookup "height").bind fun v =>
        (v.get_number).map f64_as_u32).elim m.video_height some :=
  apply_field_char (fun s => s.video_height) "height"
    (fun v => (v.get_number).map f64_as_u32) applyProperty_video_height props m hnd

/-- Field description of the fold for `video_codec`. -/
theorem apply_video_codec_char (props : List (String × Amf0Value))
    (m : StreamMetadata) (hnd : (props.map Prod.fst).Nodup) :
    (m.apply_metadata_values props).video_codec =
      ((props.lookup "videocodecid").bind fun v =>
        v.get_string).elim m.video_codec some :=
  apply_field_char (fun s => s.video_codec) "videocodecid"
    (fun v => v.get_string) applyProperty_video_codec props m hnd

/-- Field description of the fold for `video_bitrate_kbps`. -/
theorem apply_video_bitrate_char (props : List (String × Amf0Value))
    (m : StreamMetadata) (hnd : (props.map Prod.fst).Nodup) :
    (m.apply_metadata_values props).video_bitrate_kbps =
      ((props.lookup "videodatarate").bind fun v =>
        (v.get_number).map f64_as_u32).elim m.video_bitrate_kbps some :=
  apply_field_char (fun s => s.video_bitrate_kbps) "videodatarate"
    (fun v => (v.get_number).map f64_as_u32) applyProperty_video_bitrate props m hnd

/-- Field description of the fold for `video_frame_rate`. -/
theorem apply_video_frame_rate_char (props : List (String × Amf0Value))
    (m : StreamMetadata) (hnd : (props.map Prod.fst).Nodup) :
    (m.apply_metadata_values props).video_frame_rate =
      ((props.lookup "framerate").bind fun v =>
        (v.get_number).map f64_as_f32).elim m.video_frame_rate some :=
  apply_field_char (fun s => s.video_frame_rate) "framerate"
    (fun v => (v.get_number).map f64_as_f32) applyProperty_video_frame_rate props m hnd

/-- Field description of the fold for `audio_codec`. -/
theorem apply_audio_codec_char (props : List (String × Amf0Value))
    (m : StreamMetadata) (hnd : (props.map Prod.fst).Nodup) :
    (m.apply_metadata_values props).audio_codec =
      ((props.lookup "audiocodecid").bind fun v =>
        v.get_string).elim m.audio_codec some :=
  apply_field_char (fun s => s.audio_codec) "audiocodecid"
    (fun v => v.get_string) applyProperty_audio_codec props m hnd

/-- Field description of the fold for `audio_bitrate_kbps`. -/
theorem apply_audio_bitrate_char (props : List (String × Amf0Value))
    (m : StreamMetadata) (hnd : (props.map Prod.fst).Nodup) :
    (m.apply_metadata_values props).audio_bitrate_kbps =
      ((props.lookup "audiodatarate").bind fun v =>
        (v.get_number).map f64_as_u32).elim m.audio_bitrate_kbps some :=
  apply_field_char (fun s => s.audio_bitrate_kbps) "audiodatarate"
    (fun v => (v.get_number).map f64_as_u32) applyProperty_audio_bitrate props m hnd

/-- Field description of the fold for `audio_sample_rate`. -/
theorem apply_audio_sample_rate_char (props : List (String × Amf0Value))
    (m : StreamMetadata) (hnd : (props.map Prod.fst).Nodup) :
    (m.apply_metadata_values props).audio_sample_rate =
      ((props.lookup "audiosamplerate").bind fun v =>
        (v.get_number).map f64_as_u32).elim m.audio_sample_rate some :=
  apply_field_char (fun s => s.audio_sample_rate) "audiosamplerate"
    (fun v => (v.get_number).map f64_as_u32) applyProperty_audio_sample_rate props m hnd

/-- Field description of the fold for `audio_channels`. -/
theorem apply_audio_channels_char (props : List (String × Amf0Value))
    (m : StreamMetadata) (hnd : (props.map Prod.fst).Nodup) :
    (m.apply_metadata_values props).audio_channels =
      ((props.lookup "audiochannels").bind fun v =>
        (v.get_number).map f64_as_u32).elim m.audio_channels some :=
  apply_field_char (fun s => s.audio_channels) "audiochannels"
    (fun v => (v.get_number).map f64_as_u32) applyProperty_audio_channels props m hnd

/-- Field description of the fold for `audio_is_stereo`. -/
theorem apply_audio_is_stereo_char (props : List (String × Amf0Value))
    (m : StreamMetadata) (hnd : (props.map Prod.fst).Nodup) :
    (m.apply_metadata_values props).audio_is_stereo =
      ((props.lookup "stereo").bind fun v =>
        v.get_boolean).elim m.audio_is_stereo some :=
  apply_field_char (fun s => s.audio_is_stereo) "stereo"
    (fun v => v.get_boolean) applyProperty_audio_is_stereo props m hnd

/-- Field description of the fold for `encoder`. -/
theorem apply_encoder_char (props : List (String × Amf0Value))
    (m : StreamMetadata) (hnd : (props.map Prod.fst).Nodup) :
    (m.apply_metadata_values props).encoder =
      ((props.lookup "encoder").bind fun v =>
        v.get_string).elim m.encoder some :=
  apply_field_char (fun s => s.encoder) "encoder"
    (fun v => v.get_string) applyProperty_encoder props m hnd

/-- C7: a newly constructed StreamMetadata has every one of its eleven fields
equal to None, so an unset field is distinguishable from a zero value. -/
theorem new_all_fields_none :
    StreamMetadata.new.video_width = none ∧
    StreamMetadata.new.video_height = none ∧
    StreamMetadata.new.video_codec = none ∧
    StreamMetadata.new.video_frame_rate = none ∧
    StreamMetadata.new.video_bitrate_kbps = none ∧
    StreamMetadata.new.audio_codec = none ∧
    StreamMetadata.new.audio_bitrate_kbps = none ∧
    StreamMetadata.new.audio_sample_rate = none ∧
    StreamMetadata.new.audio_channels = none ∧
    StreamMetadata.new.audio_is_stereo = none ∧
    StreamMetadata.new.encoder = none := by
  decide

/-- C6: applying the mapping width ↦ 1920, height ↦ 1080 (both numeric) to a
fresh StreamMetadata yields video_width = some 1920, video_height = some 1080,
and every other field unset. -/
theorem apply_width_height_example :
    StreamMetadata.new.apply_metadata_values
      [("width", Amf0Value.Number (.finite 1920)),
       ("height", Amf0Value.Number (.finite 1080))] =
    { StreamMetadata.new with
        video_width := some 1920, video_height := some 1080 } := by
  decide

/-- A pair present in an association list with distinct keys is what lookup
of its key returns. -/
theorem lookup_eq_some_of_mem {l : List (String × Amf0Value)} {k : String}
    {v : Amf0Value} (hmem : (k, v) ∈ l) (hnd : (l.map Prod.fst).Nodup) :
    l.lookup k = some v := by
  induction l with
  | nil => cases hmem
  | cons p t ih =>
    obtain ⟨k0, v0⟩ := p
    rw [List.map_cons, List.nodup_cons] at hnd
    rcases List.mem_cons.mp hmem with h | h
    · cases h
      rw [List.lookup_cons, beq_self_eq_true]
    · have hk : ¬k = k0 := fun he =>
        hnd.1 (he ▸ (List.mem_map.mpr ⟨(k, v), h, rfl⟩))
      rw [List.lookup_cons, beq_false_of_ne hk]
      exact ih h hnd.2

/-- C1: applying a property mapping (whose keys are distinct, as a hash map's
are) to a freshly created StreamMetadata sets exactly the fields whose table
key is present with a correctly typed value — each to that value, coerced per
its field type — and leaves every other field `none`; unknown keys and
type-mismatched values populate nothing and the call always succeeds (the
fold is a total function). -/
theorem apply_fresh_fields_exact (props : List (String × Amf0Value))
    (hnd : (props.map Prod.fst).Nodup) :
    (StreamMetadata.new.apply_metadata_values props).video_width =
        ((props.lookup "width").bind fun v => (v.get_number).map f64_as_u32) ∧
    (StreamMetadata.new.apply_metadata_values props).video_height =
        ((props.lookup "height").bind fun v => (v.get_number).map f64_as_u32) ∧
    (StreamMetadata.new.apply_metadata_values props).video_codec =
        ((props.lookup "videocodecid").bind fun v => v.get_string) ∧
    (StreamMetadata.new.apply_metadata_values props).video_frame_rate =
        ((props.lookup "framerate").bind fun v => (v.get_number).map f64_as_f32) ∧
    (StreamMetadata.new.apply_metadata_values props).video_bitrate_kbps =
        ((props.lookup "videodatarate").bind fun v => (v.get_number).map f64_as_u32) ∧
    (StreamMetadata.new.apply_metadata_values props).audio_codec =
        ((props.lookup "audiocodecid").bind fun v => v.get_string) ∧
    (StreamMetadata.new.apply_metadata_values props).audio_bitrate_kbps =
        ((props.lookup "audiodatarate").bind fun v => (v.get_number).map f64_as_u32) ∧
    (StreamMetadata.new.apply_metadata_values props).audio_sample_rate =
        ((props.lookup "audiosamplerate").bind fun v => (v.get_number).map f64_as_u32) ∧
    (StreamMetadata.new.apply_metadata_values props).audio_channels =
        ((props.lookup "audiochannels").bind fun v => (v.get_number).map f64_as_u32) ∧
    (StreamMetadata.new.apply_metadata_values props).audio_is_stereo =
        ((props.lookup "stereo").bind fun v => v.get_boolean) ∧
    (StreamMetadata.new.apply_metadata_values props).encoder =
        ((props.lookup "encoder").bind fun v => v.get_string) := by
  refine ⟨?_, ?_, ?_, ?_, ?_, ?_, ?_, ?_, ?_, ?_, ?_⟩
  · rw [apply_video_width_char props _ hnd]
    exact elim_none_some _
  · rw [apply_video_height_char props _ hnd]
    exact elim_none_some _
  · rw [apply_video_codec_char props _ hnd]
    exact elim_none_some _
  · rw [apply_video_frame_rate_char props _ hnd]
    exact elim_none_some _
  · rw [apply_video_bitrate_char props _ hnd]
    exact elim_none_some _
  · rw [apply_audio_codec_char props _ hnd]
    exact elim_none_some _
  · rw [apply_audio_bitrate_char props _ hnd]
    exact elim_none_some _
  · rw [apply_audio_sample_rate_char props _ hnd]
    exact elim_none_some _
  · rw [apply_audio_channels_char props _ hnd]
    exact elim_none_some _
  · rw [apply_audio_is_stereo_char props _ hnd]
    exact elim_none_some _
  · rw [apply_encoder_char props _ hnd]
    exact elim_none_some _

/-- C2: applying any property mapping is total. The embedding of
`apply_metadata_values` is a total Lean function — every branch of the loop
body is covered and the numeric casts saturate — so the operation completes
on every input; in addition, every field of the result either still holds its
initial contents or holds a completely written value, so no field is left in
a half-written state. -/
theorem apply_total_fields_intact_or_set (m : StreamMetadata)
    (props : List (String × Amf0Value)) :
    ((m.apply_metadata_values props).video_width = m.video_width ∨
      ∃ x, (m.apply_metadata_values props).video_width = some x) ∧
    ((m.apply_metadata_values props).video_height = m.video_height ∨
      ∃ x, (m.apply_metadata_values props).video_height = some x) ∧
    ((m.apply_metadata_values props).video_codec = m.video_codec ∨
      ∃ x, (m.apply_metadata_values props).video_codec = some x) ∧
    ((m.apply_metadata_values props).video_frame_rate = m.video_frame_rate ∨
      ∃ x, (m.apply_metadata_values props).video_frame_rate = some x) ∧
    ((m.apply_metadata_values props).video_bitrate_kbps = m.video_bitrate_kbps ∨
      ∃ x, (m.apply_metadata_values props).video_bitrate_kbps = some x) ∧
    ((m.apply_metadata_values props).audio_codec = m.audio_codec ∨
      ∃ x, (m.apply_metadata_values props).audio_codec = some x) ∧
    ((m.apply_metadata_values props).audio_bitrate_kbps = m.audio_bitrate_kbps ∨
      ∃ x, (m.apply_metadata_values props).audio_bitrate_kbps = some x) ∧
    ((m.apply_metadata_values props).audio_sample_rate = m.audio_sample_rate ∨
      ∃ x, (m.apply_metadata_values props).audio_sample_rate = some x) ∧
    ((m.apply_metadata_values props).audio_channels = m.audio_channels ∨
      ∃ x, (m.apply_metadata_values props).audio_channels = some x) ∧
    ((m.apply_metadata_values props).audio_is_stereo = m.audio_is_stereo ∨
      ∃ x, (m.apply_metadata_values props).audio_is_stereo = some x) ∧
    ((m.apply_metadata_values props).encoder = m.encoder ∨
      ∃ x, (m.apply_metadata_values props).encoder = some x) := by
  refine ⟨?_, ?_, ?_, ?_, ?_, ?_, ?_, ?_, ?_, ?_, ?_⟩
  · rcases apply_field_preserve_or_set (fun s => s.video_width) "width"
      (fun v => (v.get_number).map f64_as_u32) applyProperty_video_width
      props m with h | ⟨v, x, _, hx⟩
    exacts [Or.inl h, Or.inr ⟨x, hx⟩]
  · rcases apply_field_preserve_or_set (fun s => s.video_height) "height"
      (fun v => (v.get_number).map f64_as_u32) applyProperty_video_height
      props m with h | ⟨v, x, _, hx⟩
    exacts [Or.inl h, Or.inr ⟨x, hx⟩]
  · rcases apply_field_preserve_or_set (fun s => s.video_codec) "videocodecid"
      (fun v => v.get_string) applyProperty_video_codec
      props m with h | ⟨v, x, _, hx⟩
    exacts [Or.inl h, Or.inr ⟨x, hx⟩]
  · rcases apply_field_preserve_or_set (fun s => s.video_frame_rate) "framerate"
      (fun v => (v.get_number).map f64_as_f32) applyProperty_video_frame_rate
      props m with h | ⟨v, x, _, hx⟩
    exacts [Or.inl h, Or.inr ⟨x, hx⟩]
  · rcases apply_field_preserve_or_set (fun s => s.video_bitrate_kbps) "videodatarate"
      (fun v => (v.get_number).map f64_as_u32) applyProperty_video_bitrate
      props m with h | ⟨v, x, _, hx⟩
    exacts [Or.inl h, Or.inr ⟨x, hx⟩]
  · rcases apply_field_preserve_or_set (fun s => s.audio_codec) "audiocodecid"
      (fun v => v.get_string) applyProperty_audio_codec
      props m with h | ⟨v, x, _, hx⟩
    exacts [Or.inl h, Or.inr ⟨x, hx⟩]
  · rcases apply_field_preserve_or_set (fun s => s.audio_bitrate_kbps) "audiodatarate"
      (fun v => (v.get_number).map f64_as_u32) applyProperty_audio_bitrate
      props m with h | ⟨v, x, _, hx⟩
    exacts [Or.inl h, Or.inr ⟨x, hx⟩]
  · rcases apply_field_preserve_or_set (fun s => s.audio_sample_rate) "audiosamplerate"
      (fun v => (v.get_number).map f64_as_u32) applyProperty_audio_sample_rate
      props m with h | ⟨v, x, _, hx⟩
    exacts [Or.inl h, Or.inr ⟨x, hx⟩]
  · rcases apply_field_preserve_or_set (fun s => s.audio_channels) "audiochannels"
      (fun v => (v.get_number).map f64_as_u32) applyProperty_audio_channels
      props m with h | ⟨v, x, _, hx⟩
    exacts [Or.inl h, Or.inr ⟨x, hx⟩]
  · rcases apply_field_preserve_or_set (fun s => s.audio_is_stereo) "stereo"
      (fun v => v.get_boolean) applyProperty_audio_is_stereo
      props m with h | ⟨v, x, _, hx⟩
    exacts [Or.inl h, Or.inr ⟨x, hx⟩]
  · rcases apply_field_preserve_or_set (fun s => s.encoder) "encoder"
      (fun v => v.get_string) applyProperty_encoder
      props m with h | ⟨v, x, _, hx⟩
    exacts [Or.inl h, Or.inr ⟨x, hx⟩]

/-- C3: for every initial StreamMetadata (not only a fresh one), a field whose
key is absent from the mapping, or present only with a value of the wrong
type (so that its extractor yields nothing), is left exactly as it was; the
mismatch skips that single field and affects no other field. -/
theorem apply_frame_effect (m : StreamMetadata)
    (props : List (String × Amf0Value)) (hnd : (props.map Prod.fst).Nodup) :
    (((props.lookup "width").bind fun v => (v.get_number).map f64_as_u32) = none →
      (m.apply_metadata_values props).video_width = m.video_width) ∧
    (((props.lookup "height").bind fun v => (v.get_number).map f64_as_u32) = none →
      (m.apply_metadata_values props).video_height = m.video_height) ∧
    (((props.lookup "videocodecid").bind fun v => v.get_string) = none →
      (m.apply_metadata_values props).video_codec = m.video_codec) ∧
    (((props.lookup "framerate").bind fun v => (v.get_number).map f64_as_f32) = none →
      (m.apply_metadata_values props).video_frame_rate = m.video_frame_rate) ∧
    (((props.lookup "videodatarate").bind fun v => (v.get_number).map f64_as_u32) = none →
      (m.apply_metadata_values props).video_bitrate_kbps = m.video_bitrate_kbps) ∧
    (((props.lookup "audiocodecid").bind fun v => v.get_string) = none →
      (m.apply_metadata_values props).audio_codec = m.audio_codec) ∧
    (((props.lookup "audiodatarate").bind fun v => (v.get_number).map f64_as_u32) = none →
      (m.apply_metadata_values props).audio_bitrate_kbps = m.audio_bitrate_kbps) ∧
    (((props.lookup "audiosamplerate").bind fun v => (v.get_number).map f64_as_u32) = none →
      (m.apply_metadata_values props).audio_sample_rate = m.audio_sample_rate) ∧
    (((props.lookup "audiochannels").bind fun v => (v.get_number).map f64_as_u32) = none →
      (m.apply_metadata_values props).audio_channels = m.audio_channels) ∧
    (((props.lookup "stereo").bind fun v => v.get_boolean) = none →
      (m.apply_metadata_values props).audio_is_stereo = m.audio_is_stereo) ∧
    (((props.lookup "encoder").bind fun v => v.get_string) = none →
      (m.apply_metadata_values props).encoder = m.encoder) := by
  refine ⟨?_, ?_, ?_, ?_, ?_, ?_, ?_, ?_, ?_, ?_, ?_⟩
  · intro h
    rw [apply_video_width_char props m hnd, h]
    rfl
  · intro h
    rw [apply_video_height_char props m hnd, h]
    rfl
  · intro h
    rw [apply_video_codec_char props m hnd, h]
    rfl
  · intro h
    rw [apply_video_frame_rate_char props m hnd, h]
    rfl
  · intro h
    rw [apply_video_bitrate_char props m hnd, h]
    rfl
  · intro h
    rw [apply_audio_codec_char props m hnd, h]
    rfl
  · intro h
    rw [apply_audio_bitrate_char props m hnd, h]
    rfl
  · intro h
    rw [apply_audio_sample_rate_char props m hnd, h]
    rfl
  · intro h
    rw [apply_audio_channels_char props m hnd, h]
    rfl
  · intro h
    rw [apply_audio_is_stereo_char props m hnd, h]
    rfl
  · intro h
    rw [apply_encoder_char props m hnd, h]
    rfl

/-- C4: numeric metadata fields accept any numeric value and coerce it. For
every numeric AMF value v supplied under "width" (resp. "height",
"videodatarate", "audiodatarate", "audiosamplerate", "audiochannels") in a
property mapping with distinct keys, the corresponding field becomes `some`
of v put through the implementation's f64-to-u32 cast (`f64_as_u32`, which
saturates: NaN and negatives give 0, values past `u32::MAX` give `u32::MAX`,
fractions truncate) — for every v, fractional, negative, NaN or
out-of-range included. -/
theorem apply_numeric_coercion (m : StreamMetadata)
    (props : List (String × Amf0Value)) (hnd : (props.map Prod.fst).Nodup)
    (v : FloatVal) :
    (("width", Amf0Value.Number v) ∈ props →
      (m.apply_metadata_values props).video_width = some (f64_as_u32 v)) ∧
    (("height", Amf0Value.Number v) ∈ props →
      (m.apply_metadata_values props).video_height = some (f64_as_u32 v)) ∧
    (("videodatarate", Amf0Value.Number v) ∈ props →
      (m.apply_metadata_values props).video_bitrate_kbps = some (f64_as_u32 v)) ∧
    (("audiodatarate", Amf0Value.Number v) ∈ props →
      (m.apply_metadata_values props).audio_bitrate_kbps = some (f64_as_u32 v)) ∧
    (("audiosamplerate", Amf0Value.Number v) ∈ props →
      (m.apply_metadata_values props).audio_sample_rate = some (f64_as_u32 v)) ∧
    (("audiochannels", Amf0Value.Number v) ∈ props →
      (m.apply_metadata_values props).audio_channels = some (f64_as_u32 v)) := by
  refine ⟨?_, ?_, ?_, ?_, ?_, ?_⟩
  · intro hmem
    rw [apply_video_width_char props m hnd, lookup_eq_some_of_mem hmem hnd]
    rfl
  · intro hmem
    rw [apply_video_height_char props m hnd, lookup_eq_some_of_mem hmem hnd]
    rfl
  · intro hmem
    rw [apply_video_bitrate_char props m hnd, lookup_eq_some_of_mem hmem hnd]
    rfl
  · intro hmem
    rw [apply_audio_bitrate_char props m hnd, lookup_eq_some_of_mem hmem hnd]
    rfl
  · intro hmem
    rw [apply_audio_sample_rate_char props m hnd, lookup_eq_some_of_mem hmem hnd]
    rfl
  · intro hmem
    rw [apply_audio_channels_char props m hnd, lookup_eq_some_of_mem hmem hnd]
    rfl

/-- C5: the string-typed fields for keys "videocodecid", "audiocodecid" and
"encoder" are set exactly when the supplied value is a string (to that very
string), and the boolean field for key "stereo" exactly when the value is a
boolean (to that very boolean); any other value shape under these keys
leaves the field as it was. -/
theorem apply_string_bool_exact (m : StreamMetadata) (v : Amf0Value) :
    ((m.apply_metadata_values [("videocodecid", v)]).video_codec =
      match v with
      | .Utf8String s => some s
      | _ => m.video_codec) ∧
    ((m.apply_metadata_values [("audiocodecid", v)]).audio_codec =
      match v with
      | .Utf8String s => some s
      | _ => m.audio_codec) ∧
    ((m.apply_metadata_values [("encoder", v)]).encoder =
      match v with
      | .Utf8String s => some s
      | _ => m.encoder) ∧
    ((m.apply_metadata_values [("stereo", v)]).audio_is_stereo =
      match v with
      | .Boolean b => some b
      | _ => m.audio_is_stereo) := by
  cases v <;> exact ⟨rfl, rfl, rfl, rfl⟩

/-- C8: applying a property mapping is deterministic and independent of the
order in which the map's pairs are drained: two lists holding exactly the
same key/value pairs (a permutation, with the distinct keys a hash map
guarantees) produce equal records from equal starting records. -/
theorem apply_perm_invariant (m : StreamMetadata)
    (props1 props2 : List (String × Amf0Value))
    (hnd : (props1.map Prod.fst).Nodup) (hp : props1.Perm props2) :
    m.apply_metadata_values props1 = m.apply_metadata_values props2 := by
  have hnd2 : (props2.map Prod.fst).Nodup := ((hp.map Prod.fst).nodup_iff).mp hnd
  have hlk : ∀ key, props1.lookup key = props2.lookup key :=
    fun key => lookup_perm_of_nodup_keys hp hnd key
  refine StreamMetadata.ext ?_ ?_ ?_ ?_ ?_ ?_ ?_ ?_ ?_ ?_ ?_
  · rw [apply_video_width_char props1 m hnd,
      apply_video_width_char props2 m hnd2, hlk]
  · rw [apply_video_height_char props1 m hnd,
      apply_video_height_char props2 m hnd2, hlk]
  · rw [apply_video_codec_char props1 m hnd,
      apply_video_codec_char props2 m hnd2, hlk]
  · rw [apply_video_frame_rate_char props1 m hnd,
      apply_video_frame_rate_char props2 m hnd2, hlk]
  · rw [apply_video_bitrate_char props1 m hnd,
      apply_video_bitrate_char props2 m hnd2, hlk]
  · rw [apply_audio_codec_char props1 m hnd,
      apply_audio_codec_char props2 m hnd2, hlk]
  · rw [apply_audio_bitrate_char props1 m hnd,
      apply_audio_bitrate_char props2 m hnd2, hlk]
  · rw [apply_audio_sample_rate_char props1 m hnd,
      apply_audio_sample_rate_char props2 m hnd2, hlk]
  · rw [apply_audio_channels_char props1 m hnd,
      apply_audio_channels_char props2 m hnd2, hlk]
  · rw [apply_audio_is_stereo_char props1 m hnd,
      apply_audio_is_stereo_char props2 m hnd2, hlk]
  · rw [apply_encoder_char props1 m hnd,
      apply_encoder_char props2 m hnd2, hlk]

/-- C9: applying the same property mapping (distinct keys, as a hash map
provides) twice in a row gives the same record as applying it once — the
second pass rewrites each affected field with the identical value and
touches nothing else. -/
theorem apply_idempotent (m : StreamMetadata)
    (props : List (String × Amf0Value)) (hnd : (props.map Prod.fst).Nodup) :
    (m.apply_metadata_values props).apply_metadata_values props =
      m.apply_metadata_values props := by
  refine StreamMetadata.ext ?_ ?_ ?_ ?_ ?_ ?_ ?_ ?_ ?_ ?_ ?_
  · rw [apply_video_width_char props (m.apply_metadata_values props) hnd,
      apply_video_width_char props m hnd]
    exact elim_elim _ _
  · rw [apply_video_height_char props (m.apply_metadata_values props) hnd,
      apply_video_height_char props m hnd]
    exact elim_elim _ _
  · rw [apply_video_codec_char props (m.apply_metadata_values props) hnd,
      apply_video_codec_char props m hnd]
    exact elim_elim _ _
  · rw [apply_video_frame_rate_char props (m.apply_metadata_values props) hnd,
      apply_video_frame_rate_char props m hnd]
    exact elim_elim _ _
  · rw [apply_video_bitrate_char props (m.apply_metadata_values props) hnd,
      apply_video_bitrate_char props m hnd]
    exact elim_elim _ _
  · rw [apply_audio_codec_char props (m.apply_metadata_values props) hnd,
      apply_audio_codec_char props m hnd]
    exact elim_elim _ _
  · rw [apply_audio_bitrate_char props (m.apply_metadata_values props) hnd,
      apply_audio_bitrate_char props m hnd]
    exact elim_elim _ _
  · rw [apply_audio_sample_rate_char props (m.apply_metadata_values props) hnd,
      apply_audio_sample_rate_char props m hnd]
    exact elim_elim _ _
  · rw [apply_audio_channels_char props (m.apply_metadata_values props) hnd,
      apply_audio_channels_char props m hnd]
    exact elim_elim _ _
  · rw [apply_audio_is_stereo_char props (m.apply_metadata_values props) hnd,
      apply_audio_is_stereo_char props m hnd]
    exact elim_elim _ _
  · rw [apply_encoder_char props (m.apply_metadata_values props) hnd,
      apply_encoder_char props m hnd]
    exact elim_elim _ _

/-- C10: applying a property mapping never clears a field — each of the
eleven fields that holds a value beforehand still holds one afterwards, for
every starting record and every mapping (applications only set or overwrite,
never reset to `none`). -/
theorem apply_never_clears (m : StreamMetadata)
    (props : List (String × Amf0Value)) :
    (m.video_width.isSome = true →
      (m.apply_metadata_values props).video_width.isSome = true) ∧
    (m.video_height.isSome = true →
      (m.apply_metadata_values props).video_height.isSome = true) ∧
    (m.video_codec.isSome = true →
      (m.apply_metadata_values props).video_codec.isSome = true) ∧
    (m.video_frame_rate.isSome = true →
      (m.apply_metadata_values props).video_frame_rate.isSome = true) ∧
    (m.video_bitrate_kbps.isSome = true →
      (m.apply_metadata_values props).video_bitrate_kbps.isSome = true) ∧
    (m.audio_codec.isSome = true →
      (m.apply_metadata_values props).audio_codec.isSome = true) ∧
    (m.audio_bitrate_kbps.isSome = true →
      (m.apply_metadata_values props).audio_bitrate_kbps.isSome = true) ∧
    (m.audio_sample_rate.isSome = true →
      (m.apply_metadata_values props).audio_sample_rate.isSome = true) ∧
    (m.audio_channels.isSome = true →
      (m.apply_metadata_values props).audio_channels.isSome = true) ∧
    (m.audio_is_stereo.isSome = true →
      (m.apply_metadata_values props).audio_is_stereo.isSome = true) ∧
    (m.encoder.isSome = true →
      (m.apply_metadata_values props).encoder.isSome = true) := by
  refine ⟨?_, ?_, ?_, ?_, ?_, ?_, ?_, ?_, ?_, ?_, ?_⟩
  · exact fun h => apply_field_isSome_mono (fun s => s.video_width) "width"
      (fun v => (v.get_number).map f64_as_u32) applyProperty_video_width props m h
  · exact fun h => apply_field_isSome_mono (fun s => s.video_height) "height"
      (fun v => (v.get_number).map f64_as_u32) applyProperty_video_height props m h
  · exact fun h => apply_field_isSome_mono (fun s => s.video_codec) "videocodecid"
      (fun v => v.get_string) applyProperty_video_codec props m h
  · exact fun h => apply_field_isSome_mono (fun s => s.video_frame_rate) "framerate"
      (fun v => (v.get_number).map f64_as_f32) applyProperty_video_frame_rate props m h
  · exact fun h => apply_field_isSome_mono (fun s => s.video_bitrate_kbps) "videodatarate"
      (fun v => (v.get_number).map f64_as_u32) applyProperty_video_bitrate props m h
  · exact fun h => apply_field_isSome_mono (fun s => s.audio_codec) "audiocodecid"
      (fun v => v.get_string) applyProperty_audio_codec props m h
  · exact fun h => apply_field_isSome_mono (fun s => s.audio_bitrate_kbps) "audiodatarate"
      (fun v => (v.get_number).map f64_as_u32) applyProperty_audio_bitrate props m h
  · exact fun h => apply_field_isSome_mono (fun s => s.audio_sample_rate) "audiosamplerate"
      (fun v => (v.get_number).map f64_as_u32) applyProperty_audio_sample_rate props m h
  · exact fun h => apply_field_isSome_mono (fun s => s.audio_channels) "audiochannels"
      (fun v => (v.get_number).map f64_as_u32) applyProperty_audio_channels props m h
  · exact fun h => apply_field_isSome_mono (fun s => s.audio_is_stereo) "stereo"
      (fun v => v.get_boolean) applyProperty_audio_is_stereo props m h
  · exact fun h => apply_field_isSome_mono (fun s => s.encoder) "encoder"
      (fun v => v.get_string) applyProperty_encoder props m h

/-- A concrete property mapping exercising a valid numeric key, a valid
boolean key, an unknown key and a type-mismatched key. -/
def c1props : List (String × Amf0Value) :=
  [("width", Amf0Value.Number (.finite 640)),
   ("stereo", Amf0Value.Boolean true),
   ("junk", Amf0Value.Null),
   ("videocodecid", Amf0Value.Number (.finite 7))]

/-- A concrete metadata record with every field populated. -/
def mfull : StreamMetadata where
  video_width := some 1
  video_height := some 2
  video_codec := some "avc1"
  video_frame_rate := some (.finite 30)
  video_bitrate_kbps := some 3
  audio_codec := some "mp4a"
  audio_bitrate_kbps := some 4
  audio_sample_rate := some 5
  audio_channels := some 6
  audio_is_stereo := some true
  encoder := some "obs"

/-- A concrete property mapping holding only wrong-typed and unknown keys. -/
def c3props : List (String × Amf0Value) :=
  [("width", Amf0Value.Utf8String "x"),
   ("stereo", Amf0Value.Number (.finite 1)),
   ("unknownkey", Amf0Value.Boolean true)]

/-- A concrete property mapping supplying extreme numeric values to every
numeric key: NaN, a negative, a fraction, an infinity, an in-range value and
a value past `u32::MAX`. -/
def c4props : List (String × Amf0Value) :=
  [("width", Amf0Value.Number .nan),
   ("height", Amf0Value.Number (.finite (-3))),
   ("videodatarate", Amf0Value.Number (.finite (7 / 2))),
   ("audiodatarate", Amf0Value.Number .posInf),
   ("audiosamplerate", Amf0Value.Number (.finite 44100)),
   ("audiochannels", Amf0Value.Number (.finite 5000000000))]

/-- A concrete two-entry property mapping. -/
def c8a : List (String × Amf0Value) :=
  [("width", Amf0Value.Number (.finite 640)),
   ("stereo", Amf0Value.Boolean true)]

/-- The same two entries in the opposite order. -/
def c8b : List (String × Amf0Value) :=
  [("stereo", Amf0Value.Boolean true),
   ("width", Amf0Value.Number (.finite 640))]

/-- A concrete property mapping with a numeric and a string entry. -/
def c9props : List (String × Amf0Value) :=
  [("height", Amf0Value.Number (.finite 720)),
   ("encoder", Amf0Value.Utf8String "obs")]

/-- A concrete property mapping mixing one overwrite, one wrong-typed value
and one unknown key. -/
def c10props : List (String × Amf0Value) :=
  [("width", Amf0Value.Number (.finite 1)),
   ("stereo", Amf0Value.Utf8String "x"),
   ("zzz", Amf0Value.Null)]

/-- Witness for C1 at the concrete mapping `c1props`. -/
theorem apply_fresh_fields_exact_witness :
    ((c1props.map Prod.fst).Nodup) ∧
    ((StreamMetadata.new.apply_metadata_values c1props).video_width =
        ((c1props.lookup "width").bind fun v => (v.get_number).map f64_as_u32) ∧
    (StreamMetadata.new.apply_metadata_values c1props).video_height =
        ((c1props.lookup "height").bind fun v => (v.get_number).map f64_as_u32) ∧
    (StreamMetadata.new.apply_metadata_values c1props).video_codec =
        ((c1props.lookup "videocodecid").bind fun v => v.get_string) ∧
    (StreamMetadata.new.apply_metadata_values c1props).video_frame_rate =
        ((c1props.lookup "framerate").bind fun v => (v.get_number).map f64_as_f32) ∧
    (StreamMetadata.new.apply_metadata_values c1props).video_bitrate_kbps =
        ((c1props.lookup "videodatarate").bind fun v => (v.get_number).map f64_as_u32) ∧
    (StreamMetadata.new.apply_metadata_values c1props).audio_codec =
        ((c1props.lookup "audiocodecid").bind fun v => v.get_string) ∧
    (StreamMetadata.new.apply_metadata_values c1props).audio_bitrate_kbps =
        ((c1props.lookup "audiodatarate").bind fun v => (v.get_number).map f64_as_u32) ∧
    (StreamMetadata.new.apply_metadata_values c1props).audio_sample_rate =
        ((c1props.lookup "audiosamplerate").bind fun v => (v.get_number).map f64_as_u32) ∧
    (StreamMetadata.new.apply_metadata_values c1props).audio_channels =
        ((c1props.lookup "audiochannels").bind fun v => (v.get_number).map f64_as_u32) ∧
    (StreamMetadata.new.apply_metadata_values c1props).audio_is_stereo =
        ((c1props.lookup "stereo").bind fun v => v.get_boolean) ∧
    (StreamMetadata.new.apply_metadata_values c1props).encoder =
        ((c1props.lookup "encoder").bind fun v => v.get_string)) :=
  ⟨by decide, apply_fresh_fields_exact c1props (by decide)⟩

/-- Witness for C3: on a fully populated record, the wrong-typed and unknown
entries of `c3props` leave every field unchanged. -/
theorem apply_frame_effect_witness :
    (mfull.apply_metadata_values c3props).video_width = mfull.video_width ∧
    (mfull.apply_metadata_values c3props).video_height = mfull.video_height ∧
    (mfull.apply_metadata_values c3props).video_codec = mfull.video_codec ∧
    (mfull.apply_metadata_values c3props).video_frame_rate = mfull.video_frame_rate ∧
    (mfull.apply_metadata_values c3props).video_bitrate_kbps = mfull.video_bitrate_kbps ∧
    (mfull.apply_metadata_values c3props).audio_codec = mfull.audio_codec ∧
    (mfull.apply_metadata_values c3props).audio_bitrate_kbps = mfull.audio_bitrate_kbps ∧
    (mfull.apply_metadata_values c3props).audio_sample_rate = mfull.audio_sample_rate ∧
    (mfull.apply_metadata_values c3props).audio_channels = mfull.audio_channels ∧
    (mfull.apply_metadata_values c3props).audio_is_stereo = mfull.audio_is_stereo ∧
    (mfull.apply_metadata_values c3props).encoder = mfull.encoder :=
  ⟨(apply_frame_effect mfull c3props (by decide)).1 (by decide),
   (apply_frame_effect mfull c3props (by decide)).2.1 (by decide),
   (apply_frame_effect mfull c3props (by decide)).2.2.1 (by decide),
   (apply_frame_effect mfull c3props (by decide)).2.2.2.1 (by decide),
   (apply_frame_effect mfull c3props (by decide)).2.2.2.2.1 (by decide),
   (apply_frame_effect mfull c3props (by decide)).2.2.2.2.2.1 (by decide),
   (apply_frame_effect mfull c3props (by decide)).2.2.2.2.2.2.1 (by decide),
   (apply_frame_effect mfull c3props (by decide)).2.2.2.2.2.2.2.1 (by decide),
   (apply_frame_effect mfull c3props (by decide)).2.2.2.2.2.2.2.2.1 (by decide),
   (apply_frame_effect mfull c3props (by decide)).2.2.2.2.2.2.2.2.2.1 (by decide),
   (apply_frame_effect mfull c3props (by decide)).2.2.2.2.2.2.2.2.2.2 (by decide)⟩

/-- Witness for C4: NaN, negative, fractional, infinite, in-range and
overflowing numbers under the six numeric keys all land as the saturating
cast dictates. -/
theorem apply_numeric_coercion_witness :
    (StreamMetadata.new.apply_metadata_values c4props).video_width =
      some (f64_as_u32 .nan) ∧
    (StreamMetadata.new.apply_metadata_values c4props).video_height =
      some (f64_as_u32 (.finite (-3))) ∧
    (StreamMetadata.new.apply_metadata_values c4props).video_bitrate_kbps =
      some (f64_as_u32 (.finite (7 / 2))) ∧
    (StreamMetadata.new.apply_metadata_values c4props).audio_bitrate_kbps =
      some (f64_as_u32 .posInf) ∧
    (StreamMetadata.new.apply_metadata_values c4props).audio_sample_rate =
      some (f64_as_u32 (.finite 44100)) ∧
    (StreamMetadata.new.apply_metadata_values c4props).audio_channels =
      some (f64_as_u32 (.finite 5000000000)) :=
  ⟨(apply_numeric_coercion StreamMetadata.new c4props (by decide) .nan).1
      (List.Mem.head _),
   (apply_numeric_coercion StreamMetadata.new c4props (by decide)
      (.finite (-3))).2.1 (List.Mem.tail _ (List.Mem.head _)),
   (apply_numeric_coercion StreamMetadata.new c4props (by decide)
      (.finite (7 / 2))).2.2.1
      (List.Mem.tail _ (List.Mem.tail _ (List.Mem.head _))),
   (apply_numeric_coercion StreamMetadata.new c4props (by decide)
      .posInf).2.2.2.1
      (List.Mem.tail _ (List.Mem.tail _ (List.Mem.tail _ (List.Mem.head _)))),
   (apply_numeric_coercion StreamMetadata.new c4props (by decide)
      (.finite 44100)).2.2.2.2.1
      (List.Mem.tail _ (List.Mem.tail _ (List.Mem.tail _ (List.Mem.tail _
        (List.Mem.head _))))),
   (apply_numeric_coercion StreamMetadata.new c4props (by decide)
      (.finite 5000000000)).2.2.2.2.2
      (List.Mem.tail _ (List.Mem.tail _ (List.Mem.tail _ (List.Mem.tail _
        (List.Mem.tail _ (List.Mem.head _))))))⟩

/-- Witness for C8: the two orders of the same two-entry mapping yield the
same record. -/
theorem apply_perm_invariant_witness :
    ((c8a.map Prod.fst).Nodup) ∧ c8a.Perm c8b ∧
    StreamMetadata.new.apply_metadata_values c8a =
      StreamMetadata.new.apply_metadata_values c8b :=
  ⟨by decide,
   List.Perm.swap ("stereo", Amf0Value.Boolean true)
     ("width", Amf0Value.Number (.finite 640)) [],
   apply_perm_invariant StreamMetadata.new c8a c8b (by decide)
     (List.Perm.swap ("stereo", Amf0Value.Boolean true)
       ("width", Amf0Value.Number (.finite 640)) [])⟩

/-- Witness for C9: applying `c9props` twice equals applying it once. -/
theorem apply_idempotent_witness :
    ((c9props.map Prod.fst).Nodup) ∧
    (StreamMetadata.new.apply_metadata_values c9props).apply_metadata_values
        c9props = StreamMetadata.new.apply_metadata_values c9props :=
  ⟨by decide, apply_idempotent StreamMetadata.new c9props (by decide)⟩

/-- Witness for C10: every field of a fully populated record is still present
after applying `c10props`. -/
theorem apply_never_clears_witness :
    (mfull.apply_metadata_values c10props).video_width.isSome = true ∧
    (mfull.apply_metadata_values c10props).video_height.isSome = true ∧
    (mfull.apply_metadata_values c10props).video_codec.isSome = true ∧
    (mfull.apply_metadata_values c10props).video_frame_rate.isSome = true ∧
    (mfull.apply_metadata_values c10props).video_bitrate_kbps.isSome = true ∧
    (mfull.apply_metadata_values c10props).audio_codec.isSome = true ∧
    (mfull.apply_metadata_values c10props).audio_bitrate_kbps.isSome = true ∧
    (mfull.apply_metadata_values c10props).audio_sample_rate.isSome = true ∧
    (mfull.apply_metadata_values c10props).audio_channels.isSome = true ∧
    (mfull.apply_metadata_values c10props).audio_is_stereo.isSome = true ∧
    (mfull.apply_metadata_values c10props).encoder.isSome = true :=
  ⟨(apply_never_clears mfull c10props).1 (by decide),
   (apply_never_clears mfull c10props).2.1 (by decide),
   (apply_never_clears mfull c10props).2.2.1 (by decide),
   (apply_never_clears mfull c10props).2.2.2.1 (by decide),
   (apply_never_clears mfull c10props).2.2.2.2.1 (by decide),
   (apply_never_clears mfull c10props).2.2.2.2.2.1 (by decide),
   (apply_never_clears mfull c10props).2.2.2.2.2.2.1 (by decide),
   (apply_never_clears mfull c10props).2.2.2.2.2.2.2.1 (by decide),
   (apply_never_clears mfull c10props).2.2.2.2.2.2.2.2.1 (by decide),
   (apply_never_clears mfull c10props).2.2.2.2.2.2.2.2.2.1 (by decide),
   (apply_never_clears mfull c10props).2.2.2.2.2.2.2.2.2.2 (by decide)⟩
